import Mathlib

/-!
Verification of the UCS async event-delivery context (src/src/ucs/async/async.h)
against its specification.  The header itself defines `ucs_async_check_miss`,
`ucs_async_is_blocked` and the `UCS_ASYNC_BLOCK` / `UCS_ASYNC_UNBLOCK`
dispatch macros; the primitives they dispatch to (recursive spinlock and
mutex from thread.h, signal masking from signal.h, the MPMC queue from
mpmc.h, and the flush/poll routines from async.c) are not part of the
sources and are modelled from the specification where marked.
-/

namespace UcxAsync

/-- Event delivery mode, as used by async.h (the enum itself lives in
async_fwd.h; the four values are the ones async.h dispatches on). -/
inductive ucs_async_mode_t where
  | UCS_ASYNC_MODE_SIGNAL
  | UCS_ASYNC_MODE_THREAD_SPINLOCK
  | UCS_ASYNC_MODE_THREAD_MUTEX
  | UCS_ASYNC_MODE_POLL
deriving DecidableEq, Repr

open ucs_async_mode_t

/-- Modelled from the spec: recursive spinlock state (thread.h is not under
src).  Per §6 the primitive offers lock/unlock/is-held; per the claims all
calls happen on one logical execution path, so the state is the recursion
depth held on that path. -/
structure ucs_recursive_spinlock_t where
  count : Nat
deriving DecidableEq, Repr

/-- Modelled from the spec: recursive mutex state (thread.h is not under
src); recursion depth of the single logical execution path. -/
structure ucs_recursive_mutex_t where
  count : Nat
deriving DecidableEq, Repr

/-- Thread-mode payload of the context union: async.h accesses
`async->thread.spinlock` and `async->thread.mutex`. -/
structure ucs_async_thread_context_t where
  spinlock : ucs_recursive_spinlock_t
  mutex : ucs_recursive_mutex_t
deriving DecidableEq, Repr

/-- The async context of async.h.  The C struct overlays the mode-specific
members in a union selected by the immutable `mode` tag and only ever
touches the member matching the mode, so the overlay is modelled as
separate fields.  `signal_block_count` stands for the current thread's
thread-local signal-mask depth (per the spec, Signal mode state is
thread-local, not stored per-context; signal.h is not under src).
The miss queue is modelled as a list of opaque tokens and `last_wakeup`
as a monotonic timestamp. -/
structure ucs_async_context where
  thread : ucs_async_thread_context_t
  poll_block : Int
  signal_block_count : Nat
  mode : ucs_async_mode_t
  missed : List Nat
  last_wakeup : Nat
deriving DecidableEq, Repr

/-- Modelled from the spec: recursive spinlock lock deepens the nesting. -/
def ucs_recursive_spin_lock (l : ucs_recursive_spinlock_t) : ucs_recursive_spinlock_t :=
  ⟨l.count + 1⟩

/-- Modelled from the spec: recursive spinlock unlock releases one level. -/
def ucs_recursive_spin_unlock (l : ucs_recursive_spinlock_t) : ucs_recursive_spinlock_t :=
  ⟨l.count - 1⟩

/-- Modelled from the spec: the spinlock is held iff some nesting level is
outstanding. -/
def ucs_recursive_spinlock_is_held (l : ucs_recursive_spinlock_t) : Bool :=
  decide (0 < l.count)

/-- Modelled from the spec: recursive mutex block deepens the nesting. -/
def ucs_recursive_mutex_block (m : ucs_recursive_mutex_t) : ucs_recursive_mutex_t :=
  ⟨m.count + 1⟩

/-- Modelled from the spec: recursive mutex unblock releases one level. -/
def ucs_recursive_mutex_unblock (m : ucs_recursive_mutex_t) : ucs_recursive_mutex_t :=
  ⟨m.count - 1⟩

/-- Modelled from the spec: the mutex is blocked iff some nesting level is
outstanding. -/
def ucs_recursive_mutex_is_blocked (m : ucs_recursive_mutex_t) : Bool :=
  decide (0 < m.count)

/-- Modelled from the spec: UCS_ASYNC_SIGNAL_BLOCK (signal.h is not under
src) increments the current thread's signal-mask depth. -/
def UCS_ASYNC_SIGNAL_BLOCK (a : ucs_async_context) : ucs_async_context :=
  { a with signal_block_count := a.signal_block_count + 1 }

/-- Modelled from the spec: UCS_ASYNC_SIGNAL_UNBLOCK decrements the current
thread's signal-mask depth, unmasking at zero. -/
def UCS_ASYNC_SIGNAL_UNBLOCK (a : ucs_async_context) : ucs_async_context :=
  { a with signal_block_count := a.signal_block_count - 1 }

/-- Modelled from the spec: UCS_ASYNC_SIGNAL_IS_RECURSIVELY_BLOCKED is true
iff the current thread's mask depth is positive. -/
def UCS_ASYNC_SIGNAL_IS_RECURSIVELY_BLOCKED (a : ucs_async_context) : Bool :=
  decide (0 < a.signal_block_count)

/-- Modelled from the spec: MPMC queue emptiness test (mpmc.h is not under
src). -/
def ucs_mpmc_queue_is_empty (q : List Nat) : Bool :=
  q.isEmpty

/-- Modelled from the spec: MPMC queue push of an opaque token. -/
def ucs_mpmc_queue_push (q : List Nat) (t : Nat) : List Nat :=
  q ++ [t]

/-- Modelled from the spec: a producer records a missed notification in the
context's miss queue (the producer side lives in async.c, not under src). -/
def ucs_async_push_missed (a : ucs_async_context) (t : Nat) : ucs_async_context :=
  { a with missed := ucs_mpmc_queue_push a.missed t }

/-- Modelled from the spec: the flush-missed-events routine
(__ucs_async_poll_missed, implemented in async.c) drains and replays every
queued notification, leaving the miss queue empty. -/
def ucs_async_poll_missed_routine (a : ucs_async_context) : ucs_async_context :=
  { a with missed := [] }

/-- Modelled from the spec: the active-poll routine (ucs_async_poll,
implemented in async.c) observes current readiness; it does not change any
state modelled here. -/
def ucs_async_poll (a : ucs_async_context) : ucs_async_context :=
  a

/-- Result of one ucs_async_check_miss call: the returned int (as a Bool),
whether the flush-missed routine was invoked, whether the active-poll
routine was invoked, and the context afterwards. -/
structure ucs_async_check_miss_result where
  ret : Bool
  flushed_missed : Bool
  polled : Bool
  state : ucs_async_context
deriving DecidableEq, Repr

/-- Translation of ucs_async_check_miss from async.h: if the miss queue is
non-empty, flush it and return 1; else if the mode is POLL, poll actively
and return 1; else return 0. -/
def ucs_async_check_miss (a : ucs_async_context) : ucs_async_check_miss_result :=
  if ¬ ucs_mpmc_queue_is_empty a.missed then
    ⟨true, true, false, ucs_async_poll_missed_routine a⟩
  else if a.mode = UCS_ASYNC_MODE_POLL then
    ⟨true, false, true, ucs_async_poll a⟩
  else
    ⟨false, false, false, a⟩

/-- Translation of ucs_async_is_blocked from async.h: dispatch on the mode;
the final else branch reads the poll counter. -/
def ucs_async_is_blocked (a : ucs_async_context) : Bool :=
  if a.mode = UCS_ASYNC_MODE_THREAD_SPINLOCK then
    ucs_recursive_spinlock_is_held a.thread.spinlock
  else if a.mode = UCS_ASYNC_MODE_THREAD_MUTEX then
    ucs_recursive_mutex_is_blocked a.thread.mutex
  else if a.mode = UCS_ASYNC_MODE_SIGNAL then
    UCS_ASYNC_SIGNAL_IS_RECURSIVELY_BLOCKED a
  else
    decide (0 < a.poll_block)

/-- Translation of the UCS_ASYNC_BLOCK macro from async.h: dispatch on the
mode; the final else branch increments the poll counter. -/
def UCS_ASYNC_BLOCK (a : ucs_async_context) : ucs_async_context :=
  if a.mode = UCS_ASYNC_MODE_THREAD_SPINLOCK then
    { a with thread := { a.thread with spinlock := ucs_recursive_spin_lock a.thread.spinlock } }
  else if a.mode = UCS_ASYNC_MODE_THREAD_MUTEX then
    { a with thread := { a.thread with mutex := ucs_recursive_mutex_block a.thread.mutex } }
  else if a.mode = UCS_ASYNC_MODE_SIGNAL then
    UCS_ASYNC_SIGNAL_BLOCK a
  else
    { a with poll_block := a.poll_block + 1 }

/-- Translation of the UCS_ASYNC_UNBLOCK macro from async.h: dispatch on the
mode; the final else branch decrements the poll counter. -/
def UCS_ASYNC_UNBLOCK (a : ucs_async_context) : ucs_async_context :=
  if a.mode = UCS_ASYNC_MODE_THREAD_SPINLOCK then
    { a with thread := { a.thread with spinlock := ucs_recursive_spin_unlock a.thread.spinlock } }
  else if a.mode = UCS_ASYNC_MODE_THREAD_MUTEX then
    { a with thread := { a.thread with mutex := ucs_recursive_mutex_unblock a.thread.mutex } }
  else if a.mode = UCS_ASYNC_MODE_SIGNAL then
    UCS_ASYNC_SIGNAL_UNBLOCK a
  else
    { a with poll_block := a.poll_block - 1 }

/-- Modelled from the spec: ucs_async_context_init (async.c is not under
src) clears the mode-specific state, produces an empty miss queue and sets
last_wakeup to the current time. -/
def ucs_async_context_init (mode : ucs_async_mode_t) (now : Nat) : ucs_async_context :=
  { thread := ⟨⟨0⟩, ⟨0⟩⟩, poll_block := 0, signal_block_count := 0,
    mode := mode, missed := [], last_wakeup := now }

/-- Modelled from the spec: ucs_async_is_from_async (declared in async.h,
implemented in async.c which is not under src) is true exactly when the
calling execution runs inside this context's own delivery path, and false
for Poll mode, which has no delivery path of its own.  The flag abstracts
which execution flow performs the call. -/
def ucs_async_is_from_async (a : ucs_async_context) (in_own_delivery_path : Bool) : Bool :=
  if a.mode = UCS_ASYNC_MODE_POLL then false else in_own_delivery_path

/-- Operational view of calling ucs_async_is_blocked: the C function takes
a const pointer and contains no assignment, so the call returns its value
together with the untouched context. -/
def ucs_async_is_blocked_call (a : ucs_async_context) : Bool × ucs_async_context :=
  (ucs_async_is_blocked a, a)

/-- Operational view of calling ucs_async_is_from_async: a const-pointer
query returning its value together with the untouched context. -/
def ucs_async_is_from_async_call (a : ucs_async_context) (flow : Bool) :
    Bool × ucs_async_context :=
  (ucs_async_is_from_async a flow, a)

/-- Iterated UCS_ASYNC_BLOCK. -/
def blockN (n : Nat) (a : ucs_async_context) : ucs_async_context :=
  UCS_ASYNC_BLOCK^[n] a

/-- Iterated UCS_ASYNC_UNBLOCK. -/
def unblockN (n : Nat) (a : ucs_async_context) : ucs_async_context :=
  UCS_ASYNC_UNBLOCK^[n] a

/-- State after one ucs_async_check_miss call. -/
def checkStep (a : ucs_async_context) : ucs_async_context :=
  (ucs_async_check_miss a).state

/-- Run a sequence of block (true) and unblock (false) calls. -/
def pollOpsRun (ops : List Bool) (a : ucs_async_context) : ucs_async_context :=
  ops.foldl (fun s op => if op then UCS_ASYNC_BLOCK s else UCS_ASYNC_UNBLOCK s) a

/-- Nesting depth of the mode-specific state the active mode dispatches to
(as an integer, since the poll counter is signed). -/
def modeDepth (a : ucs_async_context) : Int :=
  if a.mode = UCS_ASYNC_MODE_THREAD_SPINLOCK then
    (a.thread.spinlock.count : Int)
  else if a.mode = UCS_ASYNC_MODE_THREAD_MUTEX then
    (a.thread.mutex.count : Int)
  else if a.mode = UCS_ASYNC_MODE_SIGNAL then
    (a.signal_block_count : Int)
  else
    a.poll_block

/-- Sample context: freshly initialized POLL context. -/
def ctxPoll0 : ucs_async_context :=
  ⟨⟨⟨0⟩, ⟨0⟩⟩, 0, 0, UCS_ASYNC_MODE_POLL, [], 0⟩

/-- Sample context: freshly initialized THREAD_SPINLOCK context. -/
def ctxSpin0 : ucs_async_context :=
  ⟨⟨⟨0⟩, ⟨0⟩⟩, 0, 0, UCS_ASYNC_MODE_THREAD_SPINLOCK, [], 0⟩

/-- Blocking never changes the mode tag. -/
lemma mode_block (a : ucs_async_context) : (UCS_ASYNC_BLOCK a).mode = a.mode := by
  unfold UCS_ASYNC_BLOCK UCS_ASYNC_SIGNAL_BLOCK
  split_ifs <;> rfl

/-- Unblocking never changes the mode tag. -/
lemma mode_unblock (a : ucs_async_context) : (UCS_ASYNC_UNBLOCK a).mode = a.mode := by
  unfold UCS_ASYNC_UNBLOCK UCS_ASYNC_SIGNAL_UNBLOCK
  split_ifs <;> rfl

/-- A miss check never changes the mode tag. -/
lemma mode_checkStep (a : ucs_async_context) : (checkStep a).mode = a.mode := by
  unfold checkStep ucs_async_check_miss ucs_async_poll_missed_routine ucs_async_poll
  split_ifs <;> rfl

/-- Blocked status is exactly positivity of the active mode's depth. -/
lemma is_blocked_eq_depth (a : ucs_async_context) :
    ucs_async_is_blocked a = decide (0 < modeDepth a) := by
  rcases a with ⟨⟨⟨sc⟩, ⟨mc⟩⟩, pb, sg, m, q, w⟩
  cases m <;>
    simp [ucs_async_is_blocked, modeDepth, ucs_recursive_spinlock_is_held,
      ucs_recursive_mutex_is_blocked, UCS_ASYNC_SIGNAL_IS_RECURSIVELY_BLOCKED,
      decide_eq_decide]

/-- One block call increases the active depth by one. -/
lemma depth_block (a : ucs_async_context) :
    modeDepth (UCS_ASYNC_BLOCK a) = modeDepth a + 1 := by
  rcases a with ⟨⟨⟨sc⟩, ⟨mc⟩⟩, pb, sg, m, q, w⟩
  cases m <;>
    simp [UCS_ASYNC_BLOCK, modeDepth, UCS_ASYNC_SIGNAL_BLOCK,
      ucs_recursive_spin_lock, ucs_recursive_mutex_block]

/-- One unblock call decreases the active depth by one, provided the depth
is positive or the mode is POLL (whose signed counter cannot truncate). -/
lemma depth_unblock (a : ucs_async_context)
    (h : 0 < modeDepth a ∨ a.mode = UCS_ASYNC_MODE_POLL) :
    modeDepth (UCS_ASYNC_UNBLOCK a) = modeDepth a - 1 := by
  rcases a with ⟨⟨⟨sc⟩, ⟨mc⟩⟩, pb, sg, m, q, w⟩
  cases m <;>
    simp [UCS_ASYNC_UNBLOCK, modeDepth, UCS_ASYNC_SIGNAL_UNBLOCK,
      ucs_recursive_spin_unlock, ucs_recursive_mutex_unblock] at h ⊢ <;>
    omega

/-- Iterated blocking never changes the mode tag. -/
lemma mode_blockN (n : Nat) (a : ucs_async_context) : (blockN n a).mode = a.mode := by
  induction n with
  | zero => rfl
  | succ k ih =>
    rw [blockN, Function.iterate_succ_apply']
    rw [mode_block]
    exact ih

/-- Iterated unblocking never changes the mode tag. -/
lemma mode_unblockN (n : Nat) (a : ucs_async_context) : (unblockN n a).mode = a.mode := by
  induction n with
  | zero => rfl
  | succ k ih =>
    rw [unblockN, Function.iterate_succ_apply']
    rw [mode_unblock]
    exact ih

/-- n block calls increase the active depth by n. -/
lemma depth_blockN (n : Nat) (a : ucs_async_context) :
    modeDepth (blockN n a) = modeDepth a + n := by
  induction n with
  | zero => simp [blockN]
  | succ k ih =>
    rw [blockN, Function.iterate_succ_apply', ← blockN, depth_block, ih]
    push_cast
    ring

/-- n unblock calls decrease the active depth by n, provided the depth can
absorb them (or the mode is POLL, whose signed counter cannot truncate). -/
lemma depth_unblockN (n : Nat) (a : ucs_async_context)
    (h : (n : Int) ≤ modeDepth a ∨ a.mode = UCS_ASYNC_MODE_POLL) :
    modeDepth (unblockN n a) = modeDepth a - n := by
  induction n with
  | zero => simp [unblockN]
  | succ k ih =>
    have hk : (k : Int) ≤ modeDepth a ∨ a.mode = UCS_ASYNC_MODE_POLL := by
      rcases h with h | h
      · left
        omega
      · right
        exact h
    rw [unblockN, Function.iterate_succ_apply', ← unblockN]
    rw [depth_unblock]
    · rw [ih hk]
      push_cast
      ring
    · rcases h with h | h
      · left
        rw [ih hk]
        push_cast at h ⊢
        omega
      · right
        rw [mode_unblockN]
        exact h

/-- A freshly initialized context has depth zero in every mode. -/
lemma depth_init (m : ucs_async_mode_t) (now : Nat) :
    modeDepth (ucs_async_context_init m now) = 0 := by
  cases m <;> rfl

/-- In POLL mode, blocked status is positivity of the poll counter. -/
lemma is_blocked_poll (a : ucs_async_context) (h : a.mode = UCS_ASYNC_MODE_POLL) :
    ucs_async_is_blocked a = decide (0 < a.poll_block) := by
  simp [ucs_async_is_blocked, h]

/-- Unfolding one step of pollOpsRun. -/
lemma pollOpsRun_cons (op : Bool) (rest : List Bool) (a : ucs_async_context) :
    pollOpsRun (op :: rest) a =
      pollOpsRun rest (if op then UCS_ASYNC_BLOCK a else UCS_ASYNC_UNBLOCK a) := rfl

/-- Running a block/unblock sequence never changes the mode tag. -/
lemma mode_pollOpsRun (ops : List Bool) (a : ucs_async_context) :
    (pollOpsRun ops a).mode = a.mode := by
  induction ops generalizing a with
  | nil => rfl
  | cons op rest ih =>
    rw [pollOpsRun_cons, ih]
    cases op
    · simp [mode_unblock]
    · simp [mode_block]

/-- In POLL mode the poll counter after a block/unblock sequence is the
initial value plus the number of blocks minus the number of unblocks. -/
lemma pollOpsRun_poll_block (ops : List Bool) (a : ucs_async_context)
    (h : a.mode = UCS_ASYNC_MODE_POLL) :
    (pollOpsRun ops a).poll_block
      = a.poll_block + (ops.count true : Int) - (ops.count false : Int) := by
  induction ops generalizing a with
  | nil => simp [pollOpsRun]
  | cons op rest ih =>
    rw [pollOpsRun_cons]
    cases op
    · have hm : (UCS_ASYNC_UNBLOCK a).mode = UCS_ASYNC_MODE_POLL := by
        rw [mode_unblock]
        exact h
      simp only [if_neg, Bool.false_eq_true, ite_false]
      rw [ih _ hm]
      have hp : (UCS_ASYNC_UNBLOCK a).poll_block = a.poll_block - 1 := by
        simp [UCS_ASYNC_UNBLOCK, h]
      rw [hp]
      simp [List.count_cons]
      ring
    · have hm : (UCS_ASYNC_BLOCK a).mode = UCS_ASYNC_MODE_POLL := by
        rw [mode_block]
        exact h
      simp only [ite_true]
      rw [ih _ hm]
      have hp : (UCS_ASYNC_BLOCK a).poll_block = a.poll_block + 1 := by
        simp [UCS_ASYNC_BLOCK, h]
      rw [hp]
      simp [List.count_cons]
      ring

/-- C2: Nesting: for every mode and every n >= 1, starting from a fresh
context, is_blocked is true after each of the first n block calls and after
each strictly partial run of unblock calls, and false after the n-th
unblock. -/
theorem block_unblock_nesting (m : ucs_async_mode_t) (now : Nat) (n : Nat)
    (hn : 1 ≤ n) :
    (∀ i, 1 ≤ i → i ≤ n →
      ucs_async_is_blocked (blockN i (ucs_async_context_init m now)) = true) ∧
    (∀ u, u < n →
      ucs_async_is_blocked (unblockN u (blockN n (ucs_async_context_init m now))) = true) ∧
    ucs_async_is_blocked (unblockN n (blockN n (ucs_async_context_init m now))) = false := by
  have hdep : ∀ i : Nat, modeDepth (blockN i (ucs_async_context_init m now)) = i := by
    intro i
    rw [depth_blockN, depth_init]
    ring
  refine ⟨?_, ?_, ?_⟩
  · intro i h1 _
    rw [is_blocked_eq_depth, hdep]
    simp only [decide_eq_true_eq]
    omega
  · intro u hu
    rw [is_blocked_eq_depth, depth_unblockN, hdep]
    · simp only [decide_eq_true_eq]
      omega
    · left
      rw [hdep]
      omega
  · rw [is_blocked_eq_depth, depth_unblockN, hdep]
    · simp
    · left
      rw [hdep]

/-- Witness for C2 at mode THREAD_SPINLOCK with n = 2. -/
theorem block_unblock_nesting_witness :
    ucs_async_is_blocked (unblockN 1 (blockN 2
      (ucs_async_context_init UCS_ASYNC_MODE_THREAD_SPINLOCK 0))) = true ∧
    ucs_async_is_blocked (unblockN 2 (blockN 2
      (ucs_async_context_init UCS_ASYNC_MODE_THREAD_SPINLOCK 0))) = false := by
  have h := block_unblock_nesting UCS_ASYNC_MODE_THREAD_SPINLOCK 0 2 (by decide)
  exact ⟨h.2.1 1 (by decide), h.2.2⟩

/-- C3: Round-trip: for every mode and every context state, block followed
by unblock restores the whole context exactly, and in particular leaves
is_blocked false if it was false before. -/
theorem block_unblock_roundtrip (a : ucs_async_context) :
    UCS_ASYNC_UNBLOCK (UCS_ASYNC_BLOCK a) = a ∧
    (ucs_async_is_blocked a = false →
      ucs_async_is_blocked (UCS_ASYNC_UNBLOCK (UCS_ASYNC_BLOCK a)) = false) := by
  have h : UCS_ASYNC_UNBLOCK (UCS_ASYNC_BLOCK a) = a := by
    rcases a with ⟨⟨⟨sc⟩, ⟨mc⟩⟩, pb, sg, m, q, w⟩
    cases m <;>
      simp [UCS_ASYNC_BLOCK, UCS_ASYNC_UNBLOCK, UCS_ASYNC_SIGNAL_BLOCK,
        UCS_ASYNC_SIGNAL_UNBLOCK, ucs_recursive_spin_lock, ucs_recursive_spin_unlock,
        ucs_recursive_mutex_block, ucs_recursive_mutex_unblock]
  refine ⟨h, fun hf => ?_⟩
  rw [h]
  exact hf

/-- Witness for C3 at a fresh THREAD_SPINLOCK context. -/
theorem block_unblock_roundtrip_witness :
    ucs_async_is_blocked (UCS_ASYNC_UNBLOCK (UCS_ASYNC_BLOCK ctxSpin0)) = false :=
  (block_unblock_roundtrip ctxSpin0).2 (by decide)

/-- C7: Poll-mode strategy contract: in POLL mode block increments the
poll counter by one, unblock decrements it by one, and is_blocked is true
iff the counter is strictly positive. -/
theorem poll_mode_contract (a : ucs_async_context)
    (h : a.mode = UCS_ASYNC_MODE_POLL) :
    (UCS_ASYNC_BLOCK a).poll_block = a.poll_block + 1 ∧
    (UCS_ASYNC_UNBLOCK a).poll_block = a.poll_block - 1 ∧
    ucs_async_is_blocked a = decide (0 < a.poll_block) := by
  refine ⟨?_, ?_, ?_⟩ <;>
    simp [UCS_ASYNC_BLOCK, UCS_ASYNC_UNBLOCK, ucs_async_is_blocked, h]

/-- Witness for C7 at a fresh POLL context. -/
theorem poll_mode_contract_witness :
    (UCS_ASYNC_BLOCK ctxPoll0).poll_block = ctxPoll0.poll_block + 1 ∧
    (UCS_ASYNC_UNBLOCK ctxPoll0).poll_block = ctxPoll0.poll_block - 1 ∧
    ucs_async_is_blocked ctxPoll0 = decide (0 < ctxPoll0.poll_block) :=
  poll_mode_contract ctxPoll0 rfl

/-- C9: in POLL mode, any sequence of b block calls and u unblock calls,
in any order and from any starting counter, leaves the signed poll counter
at initial + b - u, and is_blocked afterwards is true iff that value is
positive. -/
theorem poll_counter_additive (ops : List Bool) (a : ucs_async_context)
    (h : a.mode = UCS_ASYNC_MODE_POLL) :
    (pollOpsRun ops a).poll_block
      = a.poll_block + (ops.count true : Int) - (ops.count false : Int) ∧
    ucs_async_is_blocked (pollOpsRun ops a)
      = decide (0 < a.poll_block + (ops.count true : Int) - (ops.count false : Int)) := by
  have h1 := pollOpsRun_poll_block ops a h
  refine ⟨h1, ?_⟩
  rw [is_blocked_poll, h1]
  rw [mode_pollOpsRun]
  exact h

/-- Witness for C9: a lone unblock on a fresh POLL context drives the
counter to -1 and is_blocked to false. -/
theorem poll_counter_additive_witness :
    (pollOpsRun [false] ctxPoll0).poll_block
      = ctxPoll0.poll_block + (([false] : List Bool).count true : Int)
        - (([false] : List Bool).count false : Int) :=
  (poll_counter_additive [false] ctxPoll0 rfl).1

/-- C1: ucs_async_check_miss implements exactly the three-step algorithm:
non-empty queue means flush and return true (no poll); empty queue in POLL
mode means active poll and return true (no flush); otherwise return false
and invoke neither routine. -/
theorem check_miss_three_step (a : ucs_async_context) :
    (ucs_mpmc_queue_is_empty a.missed = false →
      (ucs_async_check_miss a).ret = true ∧
      (ucs_async_check_miss a).flushed_missed = true ∧
      (ucs_async_check_miss a).polled = false) ∧
    (ucs_mpmc_queue_is_empty a.missed = true → a.mode = UCS_ASYNC_MODE_POLL →
      (ucs_async_check_miss a).ret = true ∧
      (ucs_async_check_miss a).polled = true ∧
      (ucs_async_check_miss a).flushed_missed = false) ∧
    (ucs_mpmc_queue_is_empty a.missed = true → a.mode ≠ UCS_ASYNC_MODE_POLL →
      (ucs_async_check_miss a).ret = false ∧
      (ucs_async_check_miss a).flushed_missed = false ∧
      (ucs_async_check_miss a).polled = false) := by
  refine ⟨fun h1 => ?_, fun h1 h2 => ?_, fun h1 h2 => ?_⟩
  · simp [ucs_async_check_miss, h1]
  · simp [ucs_async_check_miss, h1, h2]
  · simp [ucs_async_check_miss, h1, h2]

/-- Witness for C1: an empty queue in THREAD_SPINLOCK mode returns false. -/
theorem check_miss_three_step_witness :
    (ucs_async_check_miss ctxSpin0).ret = false :=
  ((check_miss_three_step ctxSpin0).2.2 rfl (by decide)).1

/-- C4: in POLL mode every ucs_async_check_miss call returns true,
regardless of queue contents and however many checks preceded it. -/
theorem poll_mode_always_active (a : ucs_async_context)
    (h : a.mode = UCS_ASYNC_MODE_POLL) :
    ∀ k, (ucs_async_check_miss (checkStep^[k] a)).ret = true := by
  have hmode : ∀ k, (checkStep^[k] a).mode = UCS_ASYNC_MODE_POLL := by
    intro k
    induction k with
    | zero => exact h
    | succ j ih =>
      rw [Function.iterate_succ_apply', mode_checkStep]
      exact ih
  intro k
  have hm := hmode k
  by_cases hq : ucs_mpmc_queue_is_empty (checkStep^[k] a).missed = true
  · simp [ucs_async_check_miss, hq, hm]
  · simp [ucs_async_check_miss, hq]

/-- Witness for C4: the fifth consecutive check on a fresh POLL context
with no tokens ever pushed still returns true. -/
theorem poll_mode_always_active_witness :
    (ucs_async_check_miss (checkStep^[4] ctxPoll0)).ret = true :=
  poll_mode_always_active ctxPoll0 rfl 4

/-- Pushing a list of tokens appends them to the miss queue and leaves the
rest of the context unchanged. -/
lemma push_missed_foldl (ts : List Nat) (a : ucs_async_context) :
    ts.foldl ucs_async_push_missed a = { a with missed := a.missed ++ ts } := by
  induction ts generalizing a with
  | nil => simp
  | cons t rest ih =>
    rw [List.foldl_cons, ih]
    simp [ucs_async_push_missed, ucs_mpmc_queue_push]

/-- C5: pushing k >= 1 tokens while the context is blocked, then calling
ucs_async_check_miss with the block held, returns true, flushes exactly
once, and leaves the queue empty; a second call in a non-POLL mode returns
false and does not flush again. -/
theorem miss_capture_replay (a : ucs_async_context) (ts : List Nat)
    (hts : ts ≠ []) (hblk : ucs_async_is_blocked a = true) :
    ucs_async_is_blocked (ts.foldl ucs_async_push_missed a) = true ∧
    (ucs_async_check_miss (ts.foldl ucs_async_push_missed a)).ret = true ∧
    (ucs_async_check_miss (ts.foldl ucs_async_push_missed a)).flushed_missed = true ∧
    (ucs_async_check_miss (ts.foldl ucs_async_push_missed a)).state.missed = [] ∧
    (a.mode ≠ UCS_ASYNC_MODE_POLL →
      (ucs_async_check_miss
        (ucs_async_check_miss (ts.foldl ucs_async_push_missed a)).state).ret = false ∧
      (ucs_async_check_miss
        (ucs_async_check_miss (ts.foldl ucs_async_push_missed a)).state).flushed_missed
        = false) := by
  rw [push_missed_foldl]
  have hne : a.missed ++ ts ≠ [] := by
    intro hc
    exact hts (List.append_eq_nil.mp hc).2
  have hq : ucs_mpmc_queue_is_empty (a.missed ++ ts) = false := by
    simpa [ucs_mpmc_queue_is_empty, List.isEmpty_iff] using hne
  have hr1 : ucs_async_check_miss { a with missed := a.missed ++ ts } =
      ⟨true, true, false, { a with missed := [] }⟩ := by
    simp [ucs_async_check_miss, hq, ucs_async_poll_missed_routine]
  refine ⟨hblk, ?_, ?_, ?_, fun hm => ?_⟩
  · rw [hr1]
  · rw [hr1]
  · rw [hr1]
  · rw [hr1]
    have hr2 : ucs_async_check_miss { a with missed := ([] : List Nat) } =
        ⟨false, false, false, { a with missed := [] }⟩ := by
      simp [ucs_async_check_miss, ucs_mpmc_queue_is_empty, hm]
    rw [hr2]
    exact ⟨rfl, rfl⟩

/-- Witness for C5: one token pushed to a blocked THREAD_SPINLOCK context
is flushed by the next check, which returns true. -/
theorem miss_capture_replay_witness :
    (ucs_async_check_miss
      (([7] : List Nat).foldl ucs_async_push_missed (UCS_ASYNC_BLOCK ctxSpin0))).ret
      = true :=
  (miss_capture_replay (UCS_ASYNC_BLOCK ctxSpin0) [7] (by decide) (by decide)).2.1

/-- C6 counterexample: on a fresh POLL context (counter zero, not blocked)
a single UCS_ASYNC_UNBLOCK drives the poll counter strictly below zero, to
-1: the code neither asserts nor clamps, so the counter silently
underflows, contrary to the claim. -/
theorem poll_unblock_underflow_counterexample :
    (UCS_ASYNC_UNBLOCK ctxPoll0).poll_block < 0 ∧
    (UCS_ASYNC_UNBLOCK ctxPoll0).poll_block = -1 := by
  decide

/-- C6 (amended): in POLL mode an unblock when the context is not blocked
does not crash — the decrement is a total plain signed decrement — but
there is no assert or clamp: the counter silently underflows to -1, and
is_blocked continues to report false. -/
theorem poll_unblock_no_clamp (a : ucs_async_context)
    (hm : a.mode = UCS_ASYNC_MODE_POLL) (h0 : a.poll_block = 0) :
    (UCS_ASYNC_UNBLOCK a).poll_block = -1 ∧
    ucs_async_is_blocked (UCS_ASYNC_UNBLOCK a) = false := by
  have hb : UCS_ASYNC_UNBLOCK a = { a with poll_block := a.poll_block - 1 } := by
    simp [UCS_ASYNC_UNBLOCK, hm]
  rw [hb]
  constructor
  · simp [h0]
  · rw [is_blocked_poll ({ a with poll_block := a.poll_block - 1 }) hm]
    simp [h0]

/-- Witness for the amended C6 at a fresh POLL context. -/
theorem poll_unblock_no_clamp_witness :
    (UCS_ASYNC_UNBLOCK ctxPoll0).poll_block = -1 :=
  (poll_unblock_no_clamp ctxPoll0 rfl rfl).1

/-- C8: block and unblock leave the mode tag, the miss queue and
last_wakeup unchanged and touch only the union member matching the active
mode; the mode tag also survives a miss check. -/
theorem block_unblock_frame (a : ucs_async_context) :
    ((UCS_ASYNC_BLOCK a).mode = a.mode ∧ (UCS_ASYNC_BLOCK a).missed = a.missed ∧
      (UCS_ASYNC_BLOCK a).last_wakeup = a.last_wakeup) ∧
    ((UCS_ASYNC_UNBLOCK a).mode = a.mode ∧ (UCS_ASYNC_UNBLOCK a).missed = a.missed ∧
      (UCS_ASYNC_UNBLOCK a).last_wakeup = a.last_wakeup) ∧
    (a.mode = UCS_ASYNC_MODE_THREAD_SPINLOCK →
      (UCS_ASYNC_BLOCK a).thread.mutex = a.thread.mutex ∧
      (UCS_ASYNC_BLOCK a).signal_block_count = a.signal_block_count ∧
      (UCS_ASYNC_BLOCK a).poll_block = a.poll_block ∧
      (UCS_ASYNC_UNBLOCK a).thread.mutex = a.thread.mutex ∧
      (UCS_ASYNC_UNBLOCK a).signal_block_count = a.signal_block_count ∧
      (UCS_ASYNC_UNBLOCK a).poll_block = a.poll_block) ∧
    (a.mode = UCS_ASYNC_MODE_THREAD_MUTEX →
      (UCS_ASYNC_BLOCK a).thread.spinlock = a.thread.spinlock ∧
      (UCS_ASYNC_BLOCK a).signal_block_count = a.signal_block_count ∧
      (UCS_ASYNC_BLOCK a).poll_block = a.poll_block ∧
      (UCS_ASYNC_UNBLOCK a).thread.spinlock = a.thread.spinlock ∧
      (UCS_ASYNC_UNBLOCK a).signal_block_count = a.signal_block_count ∧
      (UCS_ASYNC_UNBLOCK a).poll_block = a.poll_block) ∧
    (a.mode = UCS_ASYNC_MODE_SIGNAL →
      (UCS_ASYNC_BLOCK a).thread = a.thread ∧
      (UCS_ASYNC_BLOCK a).poll_block = a.poll_block ∧
      (UCS_ASYNC_UNBLOCK a).thread = a.thread ∧
      (UCS_ASYNC_UNBLOCK a).poll_block = a.poll_block) ∧
    (a.mode = UCS_ASYNC_MODE_POLL →
      (UCS_ASYNC_BLOCK a).thread = a.thread ∧
      (UCS_ASYNC_BLOCK a).signal_block_count = a.signal_block_count ∧
      (UCS_ASYNC_UNBLOCK a).thread = a.thread ∧
      (UCS_ASYNC_UNBLOCK a).signal_block_count = a.signal_block_count) ∧
    (ucs_async_check_miss a).state.mode = a.mode := by
  refine ⟨?_, ?_, ?_, ?_, ?_, ?_, mode_checkStep a⟩ <;>
    rcases a with ⟨⟨⟨sc⟩, ⟨mc⟩⟩, pb, sg, m, q, w⟩ <;>
      cases m <;>
        simp [UCS_ASYNC_BLOCK, UCS_ASYNC_UNBLOCK, UCS_ASYNC_SIGNAL_BLOCK,
          UCS_ASYNC_SIGNAL_UNBLOCK, ucs_recursive_spin_lock, ucs_recursive_spin_unlock,
          ucs_recursive_mutex_block, ucs_recursive_mutex_unblock]

/-- Witness for C8: in THREAD_SPINLOCK mode, block leaves the poll counter
untouched. -/
theorem block_unblock_frame_witness :
    (UCS_ASYNC_BLOCK ctxSpin0).poll_block = ctxSpin0.poll_block :=
  ((block_unblock_frame ctxSpin0).2.2.1 rfl).2.2.1

/-- C10: ucs_async_is_blocked and ucs_async_is_from_async are read-only
queries: calling them returns the context unchanged, and their result is a
function of the blocking-relevant state only (it does not depend on the
miss queue or on last_wakeup). -/
theorem predicates_readonly (a : ucs_async_context) (flow : Bool)
    (q : List Nat) (w : Nat) :
    (ucs_async_is_blocked_call a).2 = a ∧
    (ucs_async_is_from_async_call a flow).2 = a ∧
    (ucs_async_is_blocked_call a).1 = ucs_async_is_blocked a ∧
    (ucs_async_is_from_async_call a flow).1 = ucs_async_is_from_async a flow ∧
    ucs_async_is_blocked { a with missed := q, last_wakeup := w }
      = ucs_async_is_blocked a ∧
    ucs_async_is_from_async { a with missed := q, last_wakeup := w } flow
      = ucs_async_is_from_async a flow :=
  ⟨rfl, rfl, rfl, rfl, rfl, rfl⟩

end UcxAsync
